import Mathlib

/-!
Verification of the PrimeBot music-player core.

Shallow embedding of `src/utils/MusicPlayerInteraction.py` (the `Queue` and
`Player` classes) and `src/utils/process.py` (`run_lavalink_process`).

Modelling conventions:
- a `Track` and a message id are `Nat`s: the claims only need identity;
- the Python `asyncio.Queue`'s underlying deque `_queue` is a `List Track`
  with the head as the next element `get` returns (`put` appends on the
  right, `get` pops on the left);
- the effectful calls of the `Player` coroutine methods (queue pop, the
  wavelink `play`/`destroy` calls, the chat-platform `send`/`delete` calls)
  are recorded as an explicit list of `Action`s, and the outcome of the
  bounded queue pop is an `Option Track` parameter (`none` = the 120 s
  `async_timeout` window elapsed, raising `asyncio.TimeoutError`);
- vote sets are `Finset Nat` of voter ids.
-/

namespace MusicBot

abbrev Track := Nat

abbrev MsgId := Nat

/-- Error raised by `del self._queue[index]` on an out-of-range index
(Python `IndexError`). -/
inductive QueueError where
  | IndexOutOfRange
deriving DecidableEq, Repr

namespace Queue

/-- `asyncio.Queue.put_nowait` / `put`: `self._queue.append(item)` —
appends on the right, never blocks, never fails. -/
def put (q : List Track) (t : Track) : List Track :=
  q ++ [t]

/-- Python sequence-index normalisation: a negative index counts from the
end (`i + len`); the result is `some` of the concrete position when the
index is in range `[-n, n-1]`, `none` otherwise. -/
def pyIndex (n : Nat) (index : Int) : Option Nat :=
  let i : Int := if index < 0 then index + n else index
  if 0 ≤ i ∧ i < n then some i.toNat else none

/-- Queue.remove from `MusicPlayerInteraction.py`: `del self._queue[index]`.
The deque delete follows Python indexing (negative indices count from the
end, erasing the element at the normalised position) and raises
`IndexError` — modelled as `QueueError.IndexOutOfRange` — when the index is
out of range, leaving the deque untouched (the exception is raised before
any mutation). -/
def remove (q : List Track) (index : Int) : Except QueueError (List Track) :=
  match pyIndex q.length index with
  | some i => .ok (q.eraseIdx i)
  | none => .error .IndexOutOfRange

/-- Queue.clear from `MusicPlayerInteraction.py`: `self._queue.clear()`. -/
def clear (_q : List Track) : List Track :=
  []

end Queue

/-- One operation of a producer/consumer run over the queue: an enqueue
(`put`) of a track, or the single consumer's blocking pop (`get`). -/
inductive QOp where
  | put (t : Track)
  | get
deriving DecidableEq, Repr

/-- Run a schedule of enqueues and blocking pops over the queue. A `get`
scheduled while the queue is empty blocks; a schedule in which a pop never
completes is rejected (`none`). Returns the remaining queue and the list of
popped tracks in pop order. -/
def runOps : List QOp → List Track → Option (List Track × List Track)
  | [], q => some (q, [])
  | QOp.put t :: ops, q => runOps ops (Queue.put q t)
  | QOp.get :: ops, q =>
    match q with
    | [] => none
    | t :: rest =>
      match runOps ops rest with
      | some (q', out) => some (q', t :: out)
      | none => none

/-- The tracks a schedule enqueues, in enqueue order. -/
def enqueuedTracks : List QOp → List Track
  | [] => []
  | QOp.put t :: ops => t :: enqueuedTracks ops
  | QOp.get :: ops => enqueuedTracks ops

/-- State of a `Player` session (`Player.__init__` in
`MusicPlayerInteraction.py`): the wavelink-side `is_playing` flag, the
`waiting` and `updating` guard flags, the `_loop` flag, the `now` current
track, the `menu` control-surface message handle and the six vote sets.
The queue itself is modelled separately (the play-next pop outcome is an
oracle parameter). -/
structure PlayerState where
  is_playing : Bool
  waiting : Bool
  updating : Bool
  loop : Bool
  now : Option Track
  menu : Option MsgId
  pause_votes : Finset Nat
  resume_votes : Finset Nat
  skip_votes : Finset Nat
  shuffle_votes : Finset Nat
  stop_votes : Finset Nat
  clear_votes : Finset Nat
deriving DecidableEq

/-- The effectful calls a `Player` coroutine issues, in program order:
the blocking `self.queue.get()` attempt, the wavelink `self.play(track)`
request (carrying `none` when the code would pass `self.now = None`),
the chat-platform sends/deletes/edits of the control-surface message, and
the wavelink `self.destroy()` release. -/
inductive Action where
  | popAttempt
  | play (t : Option Track)
  | sendMenu (m : MsgId)
  | deleteMenu (m : MsgId)
  | editMenu (m : MsgId)
  | destroyNode
deriving DecidableEq, Repr

/-- Player.is_menu_available from `MusicPlayerInteraction.py`. The body
iterates `self.context.channel.history(limit=10)` and compares each
`message.id` with `self.menu.message.id`; since `self.menu` is the plain
message returned by `channel.send` (it has no `.message` attribute), the
attribute access raises `AttributeError` on the first iteration, which the
`except (disnake.HTTPException, AttributeError)` clause turns into
`False`; an empty history falls through to the final `return False`. So
the method returns `False` for every history and every handle. -/
def is_menu_available (_history : List MsgId) (_menu : MsgId) : Bool :=
  false

/-- Player.songmenucontroller from `MusicPlayerInteraction.py`: no-op when
`self.updating` is set; otherwise sets `updating`, then (1) no handle →
send a new message and store its handle in `self.menu`; (2) handle present
but `is_menu_available()` false → delete the old message (best-effort,
`HTTPException`/`AttributeError` swallowed with a warning) and send a new
message, without storing it; (3) handle present and available → send a new
message (never an edit), without storing it; finally clears `updating`
(net effect on the flag: unchanged). The id the chat platform would assign
to a newly sent message is the `fresh` parameter. -/
def songmenucontroller (s : PlayerState) (fresh : MsgId)
    (history : List MsgId) : PlayerState × List Action :=
  if s.updating then (s, [])
  else
    match s.menu with
    | none => ({ s with menu := some fresh }, [Action.sendMenu fresh])
    | some m =>
      if ¬ is_menu_available history m then
        (s, [Action.deleteMenu m, Action.sendMenu fresh])
      else
        (s, [Action.sendMenu fresh])

/-- Player.teardown from `MusicPlayerInteraction.py`: deletes the
control-surface message best-effort (`HTTPException` swallowed;
`self.menu = None` raises `AttributeError`, also swallowed — no delete
call in that case) and then calls `self.destroy()`, swallowing the
`KeyError` a wavelink node raises when the player resource is already
released. The handle field itself is not cleared. -/
def teardown (s : PlayerState) : PlayerState × List Action :=
  (s,
    (match s.menu with
      | some m => [Action.deleteMenu m]
      | none => []) ++ [Action.destroyNode])

/-- The vote-clearing block of `Player.play_next_song` (the five
`*.clear()` calls under the comment `Clear the votes for a new song...`):
it clears `pause_votes`, `resume_votes`, `skip_votes`, `shuffle_votes` and
`stop_votes` — `clear_votes` is not in the block. -/
def clearVotesBlock (s : PlayerState) : PlayerState :=
  { s with
    pause_votes := ∅
    resume_votes := ∅
    skip_votes := ∅
    shuffle_votes := ∅
    stop_votes := ∅ }

/-- Player.play_next_song from `MusicPlayerInteraction.py`. Returns
immediately when `self.is_playing or self.waiting`; otherwise runs the
vote-clearing block, then: if `_loop` is false, sets `waiting`, awaits
`self.queue.get()` under `async_timeout.timeout(120)` (`popResult` is the
oracle for that pop: `some track`, or `none` when the 120 s window elapses
and `asyncio.TimeoutError` is raised) — on success stores the track in
`self.now`, plays it, clears `waiting` and refreshes the menu; on timeout
returns `await self.teardown()` (note `waiting` stays set). If `_loop` is
true, replays `self.now` and refreshes the menu. The model sets
`is_playing` when a play request is issued (wavelink's `play` sets the
current track). -/
def play_next_song (s : PlayerState) (popResult : Option Track)
    (fresh : MsgId) (history : List MsgId) : PlayerState × List Action :=
  if s.is_playing || s.waiting then (s, [])
  else
    let s1 := clearVotesBlock s
    if !s1.loop then
      match popResult with
      | some track =>
        let s2 :=
          { s1 with
            waiting := false
            now := some track
            is_playing := true }
        let r := songmenucontroller s2 fresh history
        (r.1, Action.popAttempt :: Action.play (some track) :: r.2)
      | none =>
        let s2 := { s1 with waiting := true }
        let r := teardown s2
        (r.1, Action.popAttempt :: r.2)
    else
      let s2 := { s1 with is_playing := true }
      let r := songmenucontroller s2 fresh history
      (r.1, Action.play s1.now :: r.2)

/-- Fold a sequence of control-surface refreshes (each with the id the
chat platform would assign to a fresh message and the recent history seen
at that refresh) over a session state. -/
def refreshMany (rs : List (MsgId × List MsgId)) (s : PlayerState) :
    PlayerState :=
  rs.foldl (fun st r => (songmenucontroller st r.1 r.2).1) s

/-- A quiescent session state: nothing playing, no guards set, loop off,
no current track, no menu handle, all six vote sets empty. -/
def baseState : PlayerState where
  is_playing := false
  waiting := false
  updating := false
  loop := false
  now := none
  menu := none
  pause_votes := ∅
  resume_votes := ∅
  skip_votes := ∅
  shuffle_votes := ∅
  stop_votes := ∅
  clear_votes := ∅

/-- The observable steps of `run_lavalink_process` in `src/utils/process.py`:
the `which java` check, the log lines, and the launch of the Lavalink
node (`subprocess.run(bash_command, shell=True, ...)`). -/
inductive ProcAction where
  | checkJava
  | logJavaFound
  | launchNode
  | logLaunchSuccess
  | logLaunchError
  | logJavaMissing
deriving DecidableEq, Repr

/-- run_lavalink_process from `src/utils/process.py`: runs `which java`
(`whichRc` is its return code); on return code 0 logs that java is found
and launches the node once (`launchRc` is the launch's return code),
logging success when it is 0, returning silently when it is -2, and
logging an error otherwise (note the source's `if`/`if`/`else` chain makes
a 0 return code log success and then also hit the error log, since 0 is
not -2); on a non-zero `which` return code it only logs the actionable
install-java error and never runs the launch command. `subprocess.run` is
called without `check=True`, so a failing launch sets a return code
instead of raising — the routine always returns normally. -/
def run_lavalink_process (whichRc : Int) (launchRc : Int) :
    List ProcAction :=
  if whichRc = 0 then
    [ProcAction.checkJava, ProcAction.logJavaFound, ProcAction.launchNode]
      ++ (if launchRc = 0 then [ProcAction.logLaunchSuccess] else [])
      ++ (if launchRc = -2 then [] else [ProcAction.logLaunchError])
  else
    [ProcAction.checkJava, ProcAction.logJavaMissing]

/-- Concrete session: already playing, one pending skip vote, menu 5. -/
def busyState : PlayerState :=
  { baseState with is_playing := true, skip_votes := {1}, menu := some 5 }

/-- Concrete session: idle, loop mode, current track 7, one pending skip
vote and one pending clear vote. -/
def loopVoteState : PlayerState :=
  { baseState with
    loop := true
    now := some 7
    skip_votes := {1}
    clear_votes := {2} }

/-- Concrete session: idle, ready for a new track, one pending clear
vote. -/
def clearVoteState : PlayerState :=
  { baseState with clear_votes := {1} }

end MusicBot

namespace MusicBot

lemma runOps_append_enqueued (ops : List QOp) (q0 q : List Track)
    (out : List Track) (h : runOps ops q0 = some (q, out)) :
    out ++ q = q0 ++ enqueuedTracks ops := by
  induction ops generalizing q0 q out with
  | nil =>
    simp only [runOps, Option.some.injEq, Prod.mk.injEq] at h
    simp [← h.1, ← h.2, enqueuedTracks]
  | cons op ops ih =>
    cases op with
    | put t =>
      simp only [runOps] at h
      have := ih _ _ _ h
      simpa [Queue.put, enqueuedTracks] using this
    | get =>
      cases q0 with
      | nil => simp [runOps] at h
      | cons t rest =>
        simp only [runOps] at h
        cases hrun : runOps ops rest with
        | none => rw [hrun] at h; exact absurd h (by simp)
        | some p =>
          rw [hrun] at h
          obtain ⟨q', out'⟩ := p
          simp only [Option.some.injEq, Prod.mk.injEq] at h
          have := ih _ _ _ hrun
          simp [← h.1, ← h.2, enqueuedTracks, this]

/-- C5: For every schedule of enqueues interleaved with the single
consumer's blocking pops (no shuffle or removal), starting from the empty
queue, the popped tracks followed by the remaining queue are exactly the
enqueued tracks in enqueue order — so pop order equals enqueue order
(FIFO). -/
theorem queue_fifo_pop_order (ops : List QOp) (q : List Track)
    (out : List Track) (h : runOps ops [] = some (q, out)) :
    out ++ q = enqueuedTracks ops := by
  simpa using runOps_append_enqueued ops [] q out h

/-- Witness for C5: enqueue tracks 1, 2, 3 in that order, then three
blocking pops: the pops yield 1, 2, 3 in that order. -/
theorem queue_fifo_pop_order_witness :
    [1, 2, 3] ++ [] =
      enqueuedTracks
        [QOp.put 1, QOp.put 2, QOp.put 3, QOp.get, QOp.get, QOp.get] :=
  queue_fifo_pop_order
    [QOp.put 1, QOp.put 2, QOp.put 3, QOp.get, QOp.get, QOp.get]
    [] [1, 2, 3] rfl

lemma pyIndex_eq_none_iff (n : Nat) (index : Int) :
    Queue.pyIndex n index = none ↔
      index < -(n : Int) ∨ (n : Int) ≤ index := by
  simp only [Queue.pyIndex]
  by_cases h : index < 0 <;> simp only [h, if_true, if_false, reduceIte] <;>
    split <;> simp_all <;> omega

lemma pyIndex_eq_some_iff (n : Nat) (index : Int) (i : Nat) :
    Queue.pyIndex n index = some i ↔
      ((0 ≤ index ∧ index = (i : Int)) ∨ (index < 0 ∧ index + n = (i : Int)))
        ∧ i < n := by
  simp only [Queue.pyIndex]
  by_cases h : index < 0 <;> simp only [h, if_true, if_false, reduceIte] <;>
    split <;> simp_all <;> omega

/-- C6: `remove_at` with an invalid index — in particular an index equal to
the current queue size — fails with `IndexOutOfRange` (the `IndexError`
raised by `del` leaves the deque exactly as it was: the model returns no
new queue on the error path); with a valid index it removes exactly the
element at the normalised position, keeping everything before and after
it. -/
theorem remove_at_invalid_and_valid (q : List Track) (index : Int) :
    Queue.remove q (q.length : Int) = .error .IndexOutOfRange ∧
    (∀ i, Queue.pyIndex q.length index = some i →
      Queue.remove q index = .ok (q.take i ++ q.drop (i + 1))) ∧
    (Queue.pyIndex q.length index = none →
      Queue.remove q index = .error .IndexOutOfRange) := by
  refine ⟨?_, ?_, ?_⟩
  · have h : Queue.pyIndex q.length (q.length : Int) = none := by
      rw [pyIndex_eq_none_iff]; omega
    simp [Queue.remove, h]
  · intro i hi
    simp [Queue.remove, hi, List.eraseIdx_eq_take_drop_succ]
  · intro h
    simp [Queue.remove, h]

/-- Witness for C6: on the three-element queue `[10, 20, 30]`, `remove_at 3`
(index equal to the size) fails with `IndexOutOfRange`, and `remove_at 1`
removes exactly the middle element. -/
theorem remove_at_invalid_and_valid_witness :
    Queue.remove [10, 20, 30] (([10, 20, 30] : List Track).length : Int) =
        .error .IndexOutOfRange ∧
      Queue.remove [10, 20, 30] 1 = .ok [10, 30] := by
  have h := remove_at_invalid_and_valid [10, 20, 30] 1
  exact ⟨h.1, h.2.1 1 (by decide)⟩

/-- C10: on a non-empty queue of size n, negative indices from -1 down to
-n are accepted — `remove_at (-1)` removes the last element — and
`remove_at` fails with `IndexOutOfRange` exactly for the indices outside
the range [-n, n-1]. -/
theorem remove_at_negative_indices (q : List Track) (index : Int)
    (hq : q ≠ []) :
    Queue.remove q (-1) = .ok q.dropLast ∧
    (-(q.length : Int) ≤ index → index < (q.length : Int) →
      ∃ r, Queue.remove q index = .ok r) ∧
    (Queue.remove q index = .error .IndexOutOfRange ↔
      index < -(q.length : Int) ∨ (q.length : Int) ≤ index) := by
  have hn : 0 < q.length := List.length_pos.mpr hq
  refine ⟨?_, ?_, ?_⟩
  · have h : Queue.pyIndex q.length (-1) = some (q.length - 1) := by
      rw [pyIndex_eq_some_iff]; omega
    simp only [Queue.remove, h]
    congr 1
    rw [List.eraseIdx_eq_take_drop_succ, Nat.sub_add_cancel hn,
      List.drop_length, List.append_nil, List.dropLast_eq_take]
  · intro h1 h2
    rcases hsome : Queue.pyIndex q.length index with _ | i
    · rw [pyIndex_eq_none_iff] at hsome; omega
    · exact ⟨q.eraseIdx i, by simp [Queue.remove, hsome]⟩
  · constructor
    · intro h
      by_contra hc
      push_neg at hc
      rcases hsome : Queue.pyIndex q.length index with _ | i
      · rw [pyIndex_eq_none_iff] at hsome; omega
      · simp [Queue.remove, hsome] at h
    · intro h
      have hnone : Queue.pyIndex q.length index = none := by
        rw [pyIndex_eq_none_iff]; exact h
      simp [Queue.remove, hnone]

/-- Witness for C10: on the queue `[4, 5, 6]` (size 3), `remove_at (-1)`
removes the last element, index -3 is accepted, and index -4 fails with
`IndexOutOfRange`. -/
theorem remove_at_negative_indices_witness :
    Queue.remove [4, 5, 6] (-1) = .ok ([4, 5, 6] : List Track).dropLast ∧
    (∃ r, Queue.remove [4, 5, 6] (-3) = .ok r) ∧
    Queue.remove [4, 5, 6] (-4) = .error .IndexOutOfRange := by
  refine ⟨(remove_at_negative_indices [4, 5, 6] (-3) (by decide)).1,
    (remove_at_negative_indices [4, 5, 6] (-3) (by decide)).2.1
      (by decide) (by decide), ?_⟩
  exact (remove_at_negative_indices [4, 5, 6] (-4) (by decide)).2.2.mpr
    (by decide)

/-- C3: when the session is already playing or its waiting flag is set,
play_next_song is a no-op: it returns the state unchanged in every field
(current track, loop flag, waiting flag, all six vote sets, menu handle)
and issues no effect at all — in particular no pop from the queue is
attempted. -/
theorem play_next_song_noop_when_busy (s : PlayerState)
    (popResult : Option Track) (fresh : MsgId) (history : List MsgId)
    (h : s.is_playing = true ∨ s.waiting = true) :
    play_next_song s popResult fresh history = (s, []) := by
  rcases h with h | h <;> simp [play_next_song, h]

/-- Witness for C3: a session that is already playing, with a pending skip
vote and a stored menu handle, is left exactly as it is. -/
theorem play_next_song_noop_when_busy_witness :
    play_next_song busyState (some 7) 9 [] = (busyState, []) :=
  play_next_song_noop_when_busy busyState (some 7) 9 [] (Or.inl rfl)

/-- C4: on the non-loop play-next path, when the 120 s bounded queue pop
does not complete (`popResult = none`), the run tears the session down —
the control-surface message is deleted best-effort when a handle exists
and the external-node resource is released (`destroy`, with the
resource-not-found `KeyError` swallowed) — and never transitions to
Playing: no play request is issued to the node in that run. -/
theorem play_next_song_timeout_teardown (s : PlayerState) (fresh : MsgId)
    (history : List MsgId) (h1 : s.is_playing = false)
    (h2 : s.waiting = false) (h3 : s.loop = false) :
    (∀ m, s.menu = some m →
      Action.deleteMenu m ∈ (play_next_song s none fresh history).2) ∧
    Action.destroyNode ∈ (play_next_song s none fresh history).2 ∧
    (∀ t, Action.play t ∉ (play_next_song s none fresh history).2) ∧
    (play_next_song s none fresh history).1.is_playing = false := by
  cases hm : s.menu <;>
    simp [play_next_song, clearVotesBlock, teardown, h1, h2, h3, hm]

/-- Witness for C4: an idle non-loop session with a menu handle times out:
the menu delete and node destroy are issued, no play request is, and the
session is not playing afterwards. -/
theorem play_next_song_timeout_teardown_witness :
    Action.deleteMenu 5 ∈
        (play_next_song { baseState with menu := some 5 } none 9 []).2 ∧
      Action.destroyNode ∈
        (play_next_song { baseState with menu := some 5 } none 9 []).2 ∧
      (∀ t, Action.play t ∉
        (play_next_song { baseState with menu := some 5 } none 9 []).2) ∧
      (play_next_song { baseState with menu := some 5 }
        none 9 []).1.is_playing = false := by
  have h := play_next_song_timeout_teardown
    { baseState with menu := some 5 } 9 [] rfl rfl rfl
  exact ⟨h.1 5 rfl, h.2.1, h.2.2.1, h.2.2.2⟩

/-- Counterexample to C1 as stated: a loop-mode track-completion repeat
(loop flag true, session neither playing nor waiting, current track set)
does NOT leave all six vote sets unchanged — the vote-clearing block runs
before the loop test, so a pending skip vote is wiped by the repeat. -/
theorem loop_repeat_votes_cex :
    (play_next_song loopVoteState none 9 []).1.skip_votes ≠
      loopVoteState.skip_votes := by
  simp only [play_next_song, clearVotesBlock, songmenucontroller,
    loopVoteState, baseState]
  decide

/-- C1 (amended): any play_next_song run that passes the re-entrancy guard
— the Looping → Looping repeat just like the new-track transition — clears
the pause, resume, skip, shuffle and stop vote sets and leaves exactly one
vote set, clear_votes, unchanged; so the loop repeat is NOT distinguished
from a new-track transition by the vote reset. -/
theorem play_next_song_vote_reset (s : PlayerState)
    (popResult : Option Track) (fresh : MsgId) (history : List MsgId)
    (h1 : s.is_playing = false) (h2 : s.waiting = false) :
    (play_next_song s popResult fresh history).1.pause_votes = ∅ ∧
    (play_next_song s popResult fresh history).1.resume_votes = ∅ ∧
    (play_next_song s popResult fresh history).1.skip_votes = ∅ ∧
    (play_next_song s popResult fresh history).1.shuffle_votes = ∅ ∧
    (play_next_song s popResult fresh history).1.stop_votes = ∅ ∧
    (play_next_song s popResult fresh history).1.clear_votes =
      s.clear_votes := by
  cases hl : s.loop <;> cases popResult <;> cases hm : s.menu <;>
    cases hu : s.updating <;>
    simp [play_next_song, clearVotesBlock, songmenucontroller, teardown,
      is_menu_available, h1, h2, hl, hm, hu]

/-- Witness for C1: a loop-mode repeat on a session with a pending skip
vote and a pending clear vote: afterwards the skip vote set is empty and
the clear vote set is untouched. -/
theorem play_next_song_vote_reset_witness :
    (play_next_song loopVoteState none 9 []).1.skip_votes = ∅ ∧
      (play_next_song loopVoteState none 9 []).1.clear_votes =
        loopVoteState.clear_votes := by
  have h := play_next_song_vote_reset loopVoteState none 9 [] rfl rfl
  exact ⟨h.2.2.1, h.2.2.2.2.2⟩

/-- C2 (code bug): the spec's invariant says all six vote sets are empty
immediately after a new track begins playing, but the vote-clearing block
of play_next_song omits `clear_votes.clear()`; evaluating the code on the
failing input — a session holding one pending clear vote when the
new-track path runs — shows clear_votes still holds that vote afterwards
while the five cleared sets are empty. -/
theorem new_track_leaves_clear_votes :
    (play_next_song clearVoteState (some 7) 9 []).1.clear_votes = {1} ∧
      (play_next_song clearVoteState (some 7) 9 []).1.pause_votes = ∅ ∧
      ({1} : Finset Nat) ≠ ∅ := by
  refine ⟨?_, ?_, by decide⟩ <;>
    simp [play_next_song, clearVotesBlock, songmenucontroller,
      clearVoteState, baseState]

/-- C7: with the updating guard clear, a control-surface refresh with no
existing handle creates exactly one new message and stores its handle; a
refresh whose handle still refers to a message visible among the recent
messages sends a fresh new message and never edits the existing one (the
code reaches the delete-and-resend branch even then, because
is_menu_available returns false for every history). -/
theorem songmenucontroller_fresh_message (s : PlayerState) (fresh : MsgId)
    (history : List MsgId) (h : s.updating = false) :
    (s.menu = none →
      songmenucontroller s fresh history =
        ({ s with menu := some fresh }, [Action.sendMenu fresh])) ∧
    (∀ m, s.menu = some m → m ∈ history →
      Action.sendMenu fresh ∈ (songmenucontroller s fresh history).2 ∧
        ∀ x, Action.editMenu x ∉ (songmenucontroller s fresh history).2) := by
  constructor
  · intro hm
    simp [songmenucontroller, h, hm]
  · intro m hm _
    simp [songmenucontroller, is_menu_available, h, hm]

/-- Witness for C7: a first refresh on a session with no handle creates
exactly message 9; a refresh on a session whose handle 9 is still visible
in recent history sends fresh message 10 and edits nothing. -/
theorem songmenucontroller_fresh_message_witness :
    songmenucontroller baseState 9 [] =
        ({ baseState with menu := some 9 }, [Action.sendMenu 9]) ∧
      Action.sendMenu 10 ∈
        (songmenucontroller { baseState with menu := some 9 } 10 [9, 3]).2 ∧
      ∀ x, Action.editMenu x ∉
        (songmenucontroller { baseState with menu := some 9 } 10 [9, 3]).2 := by
  have h1 := (songmenucontroller_fresh_message baseState 9 [] rfl).1 rfl
  have h2 := (songmenucontroller_fresh_message
    { baseState with menu := some 9 } 10 [9, 3] rfl).2 9 rfl
    (by decide)
  exact ⟨h1, h2.1, h2.2⟩

lemma songmenucontroller_preserves_handle (s : PlayerState) (fresh : MsgId)
    (history : List MsgId) (m : MsgId) (h : s.menu = some m) :
    ((songmenucontroller s fresh history).1).menu = some m := by
  cases hu : s.updating <;>
    simp [songmenucontroller, is_menu_available, h, hu]

/-- C9: the control-surface handle is assigned only by the branch that
creates the very first message; every later refresh — whether it found the
old message stale and replaced it, or still visible and sent a fresh one —
leaves the handle unchanged, so after any sequence of refreshes the handle
still refers to the first message ever created for the session. -/
theorem menu_handle_is_first_message (s : PlayerState) (m : MsgId)
    (rs : List (MsgId × List MsgId)) (h : s.menu = some m) :
    (refreshMany rs s).menu = some m := by
  induction rs generalizing s with
  | nil => exact h
  | cons r rs ih =>
    exact ih _ (songmenucontroller_preserves_handle s r.1 r.2 m h)

/-- Witness for C9: a session whose first menu message was 5 keeps handle
5 across two further refreshes, one where the message is gone from recent
history and one where it is still visible. -/
theorem menu_handle_is_first_message_witness :
    (refreshMany [(9, []), (10, [5, 9])]
      { baseState with menu := some 5 }).menu = some 5 :=
  menu_handle_is_first_message { baseState with menu := some 5 } 5
    [(9, []), (10, [5, 9])] rfl

/-- C8: if the `which java` check fails (non-zero return code), the launch
routine logs the actionable install-java error and never executes the node
launch command; if it succeeds, the node is launched exactly once with no
retry — and since the launch subprocess is run without `check=True`, a
launch failure is logged, never raised out of the routine (the model is a
total function on both return codes). -/
theorem run_lavalink_launch_policy (whichRc launchRc : Int) :
    (whichRc ≠ 0 →
      ProcAction.launchNode ∉ run_lavalink_process whichRc launchRc ∧
        ProcAction.logJavaMissing ∈ run_lavalink_process whichRc launchRc) ∧
    (whichRc = 0 →
      (run_lavalink_process whichRc launchRc).count
        ProcAction.launchNode = 1) := by
  constructor
  · intro h
    simp [run_lavalink_process, h]
  · intro h
    by_cases h0 : launchRc = 0 <;> by_cases h2 : launchRc = -2 <;>
      simp [run_lavalink_process, h, h0, h2]

/-- Witness for C8: with java missing (`which` returns 1) no launch action
appears and the error is logged; with java present (`which` returns 0) and
a failing launch (return code 5) the launch command runs exactly once. -/
theorem run_lavalink_launch_policy_witness :
    (ProcAction.launchNode ∉ run_lavalink_process 1 0 ∧
      ProcAction.logJavaMissing ∈ run_lavalink_process 1 0) ∧
    (run_lavalink_process 0 5).count ProcAction.launchNode = 1 :=
  ⟨(run_lavalink_launch_policy 1 0).1 (by decide),
    (run_lavalink_launch_policy 0 5).2 rfl⟩

end MusicBot
